import Mathlib

/-!
Verification development for the `gk_group_app` contact-submission pipeline
(Django application: `models.py`, `views.py`, `admin.py`).

The repository's pure logic is shallowly embedded here:
* the field validators declared on `ContactMessage` in `models.py`,
* the `SiteContent.get_content` lookup in `models.py`,
* the `get_client_ip` helper and the two submission flows
  (`contact`, `contact_form_ajax`) of `views.py`,
* the admin read/archive toggles of `admin.py`.

External effects (database writes, the email transport, the system clock)
are made explicit: the message table is a `Store` value threaded through the
functions, the transport outcome is a boolean parameter (`emailOk`), and
wall-clock instants are `Nat` arguments.  `forms.py` is absent from the
repository, so the form wrapper `ContactForm` is modelled from the spec; the
individual field rules follow the `RegexValidator` patterns and length bounds
that `models.py` declares.
-/

namespace GKGroup

/-! ### Validator: field rules from `models.py` -/

/-- Python `\s` (ASCII range), as matched by the `RegexValidator` patterns
`^[a-zA-Z\s\.]+$` and `^[\d\+\-\s\(\)]+$` in `models.py`. -/
def isPyWhitespace (c : Char) : Bool :=
  c = ' ' || c = '\t' || c = '\n' || c = '\r' || c = '\x0b' || c = '\x0c'

/-- The character class `[a-zA-Z]` of the name pattern in `models.py`. -/
def isAsciiLetter (c : Char) : Bool :=
  ('a' ≤ c && c ≤ 'z') || ('A' ≤ c && c ≤ 'Z')

/-- ASCII digit, the `\d` of the phone pattern (restricted to ASCII input). -/
def isAsciiDigit (c : Char) : Bool :=
  '0' ≤ c && c ≤ '9'

/-- One character admitted by the name pattern `^[a-zA-Z\s\.]+$`
(`models.py`, `ContactMessage.name`). -/
def nameCharOk (c : Char) : Bool :=
  isAsciiLetter c || isPyWhitespace c || c = '.'

/-- One character admitted by the phone pattern `^[\d\+\-\s\(\)]+$`
(`models.py`, `ContactMessage.phone`). -/
def phoneCharOk (c : Char) : Bool :=
  isAsciiDigit c || c = '+' || c = '-' || isPyWhitespace c || c = '(' || c = ')'

/-- The full-match semantics of `^[a-zA-Z\s\.]+$`: at least one character,
every character in the class. -/
def validName (s : String) : Bool :=
  !s.isEmpty && s.toList.all nameCharOk

/-- The full-match semantics of `^[\d\+\-\s\(\)]+$`. -/
def validPhone (s : String) : Bool :=
  !s.isEmpty && s.toList.all phoneCharOk

/-- Python `str.split(sep)` for a one-character separator, over the
character list: splitting the empty list yields one empty piece, exactly as
`"".split(",")` yields `[""]`. -/
def splitOnChar (sep : Char) : List Char → List (List Char)
  | [] => [[]]
  | c :: rest =>
      match splitOnChar sep rest with
      | [] => [[]]
      | h :: t => if c = sep then [] :: h :: t else (c :: h) :: t

/-- Python `str.split(sep)` for a one-character separator, on strings. -/
def pySplit (sep : Char) (s : String) : List String :=
  (splitOnChar sep s.toList).map (fun cs => String.mk cs)

/-- Modelled from the spec: the email syntax check performed by the absent
`forms.py` / Django `EmailField` ("non-empty, syntactically valid email
address"): one `@`, non-empty local part, dotted domain with non-empty
labels. -/
def validEmail (s : String) : Bool :=
  match pySplit '@' s with
  | [lpart, domain] =>
      !lpart.isEmpty && (pySplit '.' domain).all (fun lab => !lab.isEmpty)
        && 2 ≤ (pySplit '.' domain).length
  | _ => false

/-- `interest_area` choices declared in `models.py`. -/
def interestAreaChoices : List String :=
  ["general", "gk_textiles", "gk_steels", "partnership", "feedback"]

/-- Raw field values of a contact-form POST.  `none` models an omitted
optional field. -/
structure ContactInput where
  name : String
  email : String
  phone : Option String
  subject : Option String
  message : String
  interest_area : Option String
  deriving DecidableEq, Repr

/-- Name field check: the `RegexValidator` plus the `max_length=100` of
`models.py`. -/
def nameFieldOk (s : String) : Bool :=
  validName s && s.length ≤ 100

/-- Email field check: syntax plus `max_length=254`. -/
def emailFieldOk (s : String) : Bool :=
  validEmail s && s.length ≤ 254

/-- Phone field check: optional (`blank=True, null=True`); when supplied and
non-empty it must satisfy the pattern and `max_length=20`. -/
def phoneFieldOk (o : Option String) : Bool :=
  match o with
  | none => true
  | some p => p.isEmpty || (validPhone p && p.length ≤ 20)

/-- Subject field check: free text, `max_length=200`; omitted is fine
(defaulted later). -/
def subjectFieldOk (o : Option String) : Bool :=
  match o with
  | none => true
  | some s => s.length ≤ 200

/-- Message field check: the `min_length=10` / `max_length=2000` bounds
declared on `ContactMessage.message` in `models.py`. -/
def messageFieldOk (s : String) : Bool :=
  10 ≤ s.length && s.length ≤ 2000

/-- Interest-area check: must be one of the declared choices when supplied;
omitted is fine (defaulted later). -/
def interestFieldOk (o : Option String) : Bool :=
  match o with
  | none => true
  | some v => interestAreaChoices.contains v

/-- Modelled from the spec: the per-field error mapping produced by the
absent `ContactForm` ("returns a mapping from field name to human-readable
error message(s)"), keyed by field name; the individual rules are the
`models.py` validators above. -/
def formErrors (i : ContactInput) : List String :=
  (if nameFieldOk i.name then [] else ["name"])
    ++ (if emailFieldOk i.email then [] else ["email"])
    ++ (if phoneFieldOk i.phone then [] else ["phone"])
    ++ (if subjectFieldOk i.subject then [] else ["subject"])
    ++ (if messageFieldOk i.message then [] else ["message"])
    ++ (if interestFieldOk i.interest_area then [] else ["interest_area"])

/-- Cleaned field values of a validated submission, with the `models.py`
defaults applied: `subject` defaults to `"General Inquiry"`, `interest_area`
defaults to `"general"`. -/
structure ValidatedSubmission where
  name : String
  email : String
  phone : Option String
  subject : String
  message : String
  interest_area : String
  deriving DecidableEq, Repr

/-- Modelled from the spec: `ContactForm.is_valid` / cleaned data.  On
success the defaults of `models.py` fill the omitted optional fields. -/
def validateContact (i : ContactInput) : Except (List String) ValidatedSubmission :=
  if formErrors i = [] then
    .ok { name := i.name
          email := i.email
          phone := match i.phone with
                   | none => none
                   | some p => if p.isEmpty then none else some p
          subject := match i.subject with
                     | none => "General Inquiry"
                     | some s => s
          message := i.message
          interest_area := match i.interest_area with
                           | none => "general"
                           | some v => v }
  else
    .error (formErrors i)

/-! ### Message Store: the `ContactMessage` table of `models.py` -/

/-- One row of the `ContactMessage` table.  Timestamps are abstract `Nat`
instants; `created_at` comes from `default=timezone.now` at creation and
`updated_at` from `auto_now=True`, refreshed on every `save()`. -/
structure ContactRecord where
  id : Nat
  name : String
  email : String
  phone : Option String
  subject : String
  message : String
  interest_area : String
  ip_address : Option String
  user_agent : String
  is_read : Bool
  is_archived : Bool
  created_at : Nat
  updated_at : Nat
  deriving DecidableEq, Repr

/-- The message table plus the surrogate-id sequence. -/
structure Store where
  nextId : Nat
  records : List ContactRecord
  deriving DecidableEq, Repr

/-- The row built by `form.save(commit=False)` followed by the `ip_address`
and `user_agent` assignments and `save()` in `views.contact` /
`views.contact_form_ajax`. -/
def newRecord (st : Store) (v : ValidatedSubmission) (ip : Option String)
    (ua : String) (now : Nat) : ContactRecord :=
  { id := st.nextId
    name := v.name
    email := v.email
    phone := v.phone
    subject := v.subject
    message := v.message
    interest_area := v.interest_area
    ip_address := ip
    user_agent := ua
    is_read := false
    is_archived := false
    created_at := now
    updated_at := now }

/-- Persisting a new submission: a single atomic row insert. -/
def createMessage (st : Store) (v : ValidatedSubmission) (ip : Option String)
    (ua : String) (now : Nat) : Store :=
  { nextId := st.nextId + 1
    records := st.records ++ [newRecord st v ip ua now] }

/-! ### `views.py`: IP extraction and the two submission flows -/

/-- Python truthiness of `request.META.get(...)`: `None` and `""` are falsy. -/
def metaTruthy (o : Option String) : Bool :=
  match o with
  | none => false
  | some s => !s.isEmpty

/-- `views.get_client_ip`: the first comma-separated entry
(`x_forwarded_for.split(',')[0]`) of `HTTP_X_FORWARDED_FOR` when that header
is present and non-empty, else `REMOTE_ADDR` (which may itself be absent). -/
def get_client_ip (xff : Option String) (remote : Option String) : Option String :=
  if metaTruthy xff then
    some ((pySplit ',' (xff.getD "")).headD "")
  else
    remote

/-- The HTTP metadata the pipeline reads: `HTTP_X_FORWARDED_FOR`,
`REMOTE_ADDR` and `HTTP_USER_AGENT` from `request.META`. -/
structure RequestMeta where
  xff : Option String
  remote : Option String
  user_agent : Option String
  deriving DecidableEq, Repr

/-- Outcome of the page-rendering POST flow `views.contact`: either a
redirect to the contact page carrying a success flash, or a re-render of the
form page carrying an error flash. -/
inductive PageResponse where
  | redirect (flash : String)
  | renderPage (flash : String)
  deriving DecidableEq, Repr

def successFlash : String :=
  "Thank you for contacting us! We will get back to you within 24 hours."

def correctErrorsFlash : String :=
  "Please correct the errors below."

def pageErrorFlash : String :=
  "Sorry, there was an error sending your message. Please try again or call us directly."

def ajaxErrorMessage : String :=
  "Sorry, there was an error sending your message. Please try again."

/-- `views.contact`, POST branch.  `saveOk` is the outcome of the database
insert and `emailOk` the outcome of the email transport; a `False` value
models the corresponding call raising, which the surrounding
`try/except Exception` turns into the generic error flash.
`send_contact_email_notification` re-raises every transport failure
(`raise` in both `except` arms), so `emailOk = false` lands in the caller's
`except` branch after the row was already inserted. -/
def contact_post (meta : RequestMeta) (i : ContactInput) (saveOk emailOk : Bool)
    (st : Store) (now : Nat) : PageResponse × Store :=
  match validateContact i with
  | .error _ => (.renderPage correctErrorsFlash, st)
  | .ok v =>
      if saveOk then
        let st' := createMessage st v (get_client_ip meta.xff meta.remote)
          (meta.user_agent.getD "") now
        if emailOk then
          (.redirect successFlash, st')
        else
          (.renderPage pageErrorFlash, st')
      else
        (.renderPage pageErrorFlash, st)

/-- Outcome of `views.contact_form_ajax`: a 400 client error when the
`X-Requested-With` marker is wrong, else a JSON payload with a `success`
boolean, a `message` string, and an `errors` mapping present exactly on the
validation-failure branch. -/
inductive AjaxResponse where
  | badRequest
  | json (success : Bool) (message : String) (errors : Option (List String))
  deriving DecidableEq, Repr

/-- `views.contact_form_ajax`.  The header guard is
`request.headers.get('X-Requested-With') == 'XMLHttpRequest'`. -/
def contact_form_ajax (xRequestedWith : Option String) (meta : RequestMeta)
    (i : ContactInput) (saveOk emailOk : Bool) (st : Store) (now : Nat) :
    AjaxResponse × Store :=
  if xRequestedWith ≠ some "XMLHttpRequest" then
    (.badRequest, st)
  else
    match validateContact i with
    | .error errs => (.json false correctErrorsFlash (some errs), st)
    | .ok v =>
        if saveOk then
          let st' := createMessage st v (get_client_ip meta.xff meta.remote)
            (meta.user_agent.getD "") now
          if emailOk then
            (.json true successFlash none, st')
          else
            (.json false ajaxErrorMessage none, st')
        else
          (.json false ajaxErrorMessage none, st)

/-! ### Content Store: `SiteContent` of `models.py` -/

/-- One row of the `SiteContent` table (`content_type` carries a `unique=True`
constraint). -/
structure SiteContentEntry where
  content_type : String
  content : String
  is_active : Bool
  deriving DecidableEq, Repr

/-- `SiteContent.get_content`: `objects.get(content_type=..., is_active=True)`
returning the content, with `DoesNotExist` caught and mapped to the default.
`MultipleObjectsReturned` is not caught in the source and is modelled as the
`Except.error` case; the `unique=True` constraint rules it out. -/
def get_content (entries : List SiteContentEntry) (content_type : String)
    (dflt : Option String) : Except Unit (Option String) :=
  match entries.filter (fun e => e.content_type = content_type && e.is_active) with
  | [] => .ok dflt
  | [e] => .ok (some e.content)
  | _ :: _ :: _ => .error ()

/-! ### Admin toggles: `admin.py` -/

/-- `GKGroupModelAdmin.mark_read_view` (`admin.py`): fetch the object, set
`is_read = True`, `save()`.  The `save()` runs `auto_now`, so `updated_at`
is refreshed to the current instant. -/
def mark_read_view (st : Store) (objId : Nat) (now : Nat) : Store :=
  { st with
    records := st.records.map fun r =>
      if r.id = objId then { r with is_read := true, updated_at := now } else r }

/-- `ContactMessageAdmin.mark_as_read` bulk action:
`queryset.update(is_read=True)`.  `QuerySet.update` bypasses `save()`, so
`auto_now` does not fire and `updated_at` is left unchanged. -/
def mark_as_read (st : Store) (ids : List Nat) : Store :=
  { st with
    records := st.records.map fun r =>
      if r.id ∈ ids then { r with is_read := true } else r }

/-- `ContactMessageAdmin.mark_as_unread`: `queryset.update(is_read=False)`. -/
def mark_as_unread (st : Store) (ids : List Nat) : Store :=
  { st with
    records := st.records.map fun r =>
      if r.id ∈ ids then { r with is_read := false } else r }

/-- `ContactMessageAdmin.archive_messages`:
`queryset.update(is_archived=True)`. -/
def archive_messages (st : Store) (ids : List Nat) : Store :=
  { st with
    records := st.records.map fun r =>
      if r.id ∈ ids then { r with is_archived := true } else r }

/-- `ContactMessageAdmin.unarchive_messages`:
`queryset.update(is_archived=False)`. -/
def unarchive_messages (st : Store) (ids : List Nat) : Store :=
  { st with
    records := st.records.map fun r =>
      if r.id ∈ ids then { r with is_archived := false } else r }

/-- The admin changelist `list_editable = ['is_read', 'is_archived']` save
path: set both flags on one row through `Model.save()` (so `auto_now`
refreshes `updated_at`). -/
def admin_edit_status (st : Store) (objId : Nat) (rd ar : Bool) (now : Nat) : Store :=
  { st with
    records := st.records.map fun r =>
      if r.id = objId then
        { r with is_read := rd, is_archived := ar, updated_at := now }
      else r }

/-! ### Operation traces over the store -/

/-- Every core operation that touches the `ContactMessage` table: pipeline
submissions and the admin-initiated toggles.  The core exposes no delete. -/
inductive Op where
  | submit (meta : RequestMeta) (i : ContactInput) (saveOk emailOk : Bool) (time : Nat)
  | markReadView (objId : Nat) (time : Nat)
  | bulkMarkRead (ids : List Nat)
  | bulkMarkUnread (ids : List Nat)
  | bulkArchive (ids : List Nat)
  | bulkUnarchive (ids : List Nat)
  | editStatus (objId : Nat) (rd ar : Bool) (time : Nat)
  deriving DecidableEq, Repr

/-- Effect of one operation on the table. -/
def applyOp (st : Store) : Op → Store
  | .submit meta i saveOk emailOk t => (contact_post meta i saveOk emailOk st t).2
  | .markReadView objId t => mark_read_view st objId t
  | .bulkMarkRead ids => mark_as_read st ids
  | .bulkMarkUnread ids => mark_as_unread st ids
  | .bulkArchive ids => archive_messages st ids
  | .bulkUnarchive ids => unarchive_messages st ids
  | .editStatus objId rd ar t => admin_edit_status st objId rd ar t

/-- Effect of a sequence of operations. -/
def applyTrace (st : Store) : List Op → Store
  | [] => st
  | o :: rest => applyTrace (applyOp st o) rest

/-- The wall-clock instant an operation stamps into `updated_at`, when it
stamps one (the `QuerySet.update` bulk actions stamp none). -/
def opStamp : Op → Option Nat
  | .submit _ _ _ _ t => some t
  | .markReadView _ t => some t
  | .editStatus _ _ _ t => some t
  | _ => none

/-- Largest `updated_at` in the table. -/
def maxUpdated (st : Store) : Nat :=
  st.records.foldr (fun r m => max r.updated_at m) 0

/-- A trace is well-timed when every stamping operation happens no earlier
than everything already recorded: the clock read by `timezone.now` /
`auto_now` does not run backwards. -/
def wellTimed (st : Store) : List Op → Bool
  | [] => true
  | o :: rest =>
      (match opStamp o with
       | some t => decide (maxUpdated st ≤ t)
       | none => true)
        && wellTimed (applyOp st o) rest

/-! ### Concrete sample data used by witnesses -/

/-- The spec's scenario input: name, email and message only. -/
def exampleInput : ContactInput :=
  { name := "John Smith", email := "john@x.com", phone := none, subject := none,
    message := "Hello, I need a quote.", interest_area := none }

/-- Cleaned form of `exampleInput` with the `models.py` defaults applied. -/
def exampleValidated : ValidatedSubmission :=
  { name := "John Smith", email := "john@x.com", phone := none,
    subject := "General Inquiry", message := "Hello, I need a quote.",
    interest_area := "general" }

def exampleMeta : RequestMeta :=
  { xff := some "1.2.3.4, 5.6.7.8", remote := some "9.9.9.9", user_agent := some "UA" }

def emptyStore : Store := { nextId := 1, records := [] }

def sampleRecord : ContactRecord :=
  { id := 1, name := "John Smith", email := "john@x.com", phone := none,
    subject := "General Inquiry", message := "Hello, I need a quote.",
    interest_area := "general", ip_address := some "1.2.3.4", user_agent := "UA",
    is_read := false, is_archived := false, created_at := 0, updated_at := 0 }

def sampleStore : Store := { nextId := 2, records := [sampleRecord] }

def badNameInput : ContactInput := { exampleInput with name := "John123" }

def shortMsgInput : ContactInput := { exampleInput with message := "short" }

def sampleEntries : List SiteContentEntry :=
  [⟨"hero_title", "Welcome", true⟩, ⟨"about_text", "Story", false⟩]

/-! ### Helper lemmas -/

lemma mem_formErrors_of_name_bad (i : ContactInput) (h : nameFieldOk i.name = false) :
    "name" ∈ formErrors i := by
  unfold formErrors
  rw [h]
  simp

lemma message_mem_formErrors_iff (i : ContactInput) :
    "message" ∈ formErrors i ↔ messageFieldOk i.message = false := by
  unfold formErrors
  cases h1 : nameFieldOk i.name <;> cases h2 : emailFieldOk i.email <;>
    cases h3 : phoneFieldOk i.phone <;> cases h4 : subjectFieldOk i.subject <;>
      cases h5 : messageFieldOk i.message <;>
        cases h6 : interestFieldOk i.interest_area <;> simp

/-- A digit, or any character outside letters/whitespace/period, is rejected
by the name character class. -/
lemma nameCharOk_eq_false (c : Char)
    (h : isAsciiDigit c = true ∨
      (isAsciiLetter c = false ∧ isPyWhitespace c = false ∧ c ≠ '.')) :
    nameCharOk c = false := by
  rcases h with hd | ⟨hl, hw, hp⟩
  · have h0 : '0' ≤ c ∧ c ≤ '9' := by
      simpa [isAsciiDigit, Bool.and_eq_true, decide_eq_true_eq] using hd
    have hlet : isAsciiLetter c = false := by
      simp only [isAsciiLetter, Bool.or_eq_false_iff, Bool.and_eq_false_iff,
        decide_eq_false_iff_not]
      constructor
      · exact Or.inl (not_le.mpr (lt_of_le_of_lt h0.2 (by decide)))
      · exact Or.inl (not_le.mpr (lt_of_le_of_lt h0.2 (by decide)))
    have hws : isPyWhitespace c = false := by
      simp only [isPyWhitespace, Bool.or_eq_false_iff, decide_eq_false_iff_not]
      refine ⟨⟨⟨⟨⟨?_, ?_⟩, ?_⟩, ?_⟩, ?_⟩, ?_⟩ <;>
        · rintro rfl
          revert h0
          decide
    have hdot : c ≠ '.' := by
      rintro rfl
      revert h0
      decide
    simp [nameCharOk, hlet, hws, hdot]
  · simp [nameCharOk, hl, hw, hp]

lemma filter_eq_nil_of_forall {α : Type _} (p : α → Bool) (l : List α)
    (h : ∀ a ∈ l, p a = false) : l.filter p = [] := by
  induction l with
  | nil => rfl
  | cons a t ih =>
      rw [List.filter_cons_of_neg (by simp [h a (List.mem_cons_self a t)])]
      exact ih fun x hx => h x (List.mem_cons_of_mem _ hx)

/-- Under the `unique=True` key constraint, the active-entry filter of
`get_content` returns exactly the matching active row. -/
lemma filter_unique_key (ct : String) (entries : List SiteContentEntry)
    (huniq : (entries.map (fun e => e.content_type)).Nodup)
    (e : SiteContentEntry) (he : e ∈ entries) (hct : e.content_type = ct)
    (hact : e.is_active = true) :
    entries.filter (fun x => x.content_type = ct && x.is_active) = [e] := by
  induction entries with
  | nil => cases he
  | cons a t ih =>
      rw [List.map_cons, List.nodup_cons] at huniq
      rcases List.mem_cons.mp he with rfl | he'
      · rw [List.filter_cons_of_pos (by simp [hct, hact])]
        have ht : t.filter (fun x => x.content_type = ct && x.is_active) = [] := by
          apply filter_eq_nil_of_forall
          intro x hx
          cases hpx : (decide (x.content_type = ct) && x.is_active) with
          | false => rfl
          | true =>
              exfalso
              have hxct : x.content_type = ct :=
                of_decide_eq_true ((Bool.and_eq_true _ _).mp hpx).1
              exact huniq.1 (by
                rw [hct, ← hxct]
                exact List.mem_map_of_mem _ hx)
        rw [ht]
      · have hpa : (decide (a.content_type = ct) && a.is_active) = false := by
          cases hpa : (decide (a.content_type = ct) && a.is_active) with
          | false => rfl
          | true =>
              exfalso
              have hact : a.content_type = ct :=
                of_decide_eq_true ((Bool.and_eq_true _ _).mp hpa).1
              exact huniq.1 (by
                rw [hact, ← hct]
                exact List.mem_map_of_mem _ he')
        rw [List.filter_cons_of_neg (by simp_all)]
        exact ih huniq.2 he'

/-! ### Claim C4: the Content Store lookup contract -/

/-- Claim C4: with the per-key uniqueness constraint, `get_content` returns
the stored content exactly when an active entry for the key exists, and the
default when no entry exists or the entry is inactive. -/
theorem get_content_contract (entries : List SiteContentEntry) (ct : String)
    (dflt : Option String)
    (huniq : (entries.map (fun e => e.content_type)).Nodup) :
    (∀ e ∈ entries, e.content_type = ct → e.is_active = true →
        get_content entries ct dflt = .ok (some e.content))
    ∧ ((∀ e ∈ entries, e.content_type = ct → e.is_active = false) →
        get_content entries ct dflt = .ok dflt) := by
  constructor
  · intro e he hct hact
    unfold get_content
    rw [filter_unique_key ct entries huniq e he hct hact]
  · intro hno
    unfold get_content
    rw [filter_eq_nil_of_forall _ _ (fun e he => by
      cases hc : decide (e.content_type = ct) with
      | false => simp [hc]
      | true => simp [hc, hno e he (of_decide_eq_true hc)])]

theorem get_content_contract_witness :
    get_content sampleEntries "hero_title" (some "D") = .ok (some "Welcome")
    ∧ get_content sampleEntries "about_text" (some "D") = .ok (some "D") := by
  constructor
  · exact (get_content_contract sampleEntries "hero_title" (some "D") (by decide)).1
      ⟨"hero_title", "Welcome", true⟩ (by decide) rfl rfl
  · exact (get_content_contract sampleEntries "about_text" (some "D") (by decide)).2
      (by decide)

/-! ### Claim C5: name characters -/

/-- Claim C5: a submission whose name contains a digit, or any character that
is not a letter, whitespace, or a period, fails validation with a name-field
error. -/
theorem invalid_name_char_rejected (i : ContactInput) (c : Char)
    (hc : c ∈ i.name.toList)
    (hbad : isAsciiDigit c = true ∨
      (isAsciiLetter c = false ∧ isPyWhitespace c = false ∧ c ≠ '.')) :
    "name" ∈ formErrors i := by
  have hcf := nameCharOk_eq_false c hbad
  have hvn : validName i.name = false := by
    cases hv : validName i.name with
    | false => rfl
    | true =>
        exfalso
        have hall := ((Bool.and_eq_true _ _).mp hv).2
        rw [List.all_eq_true] at hall
        have := hall c hc
        rw [hcf] at this
        cases this
  exact mem_formErrors_of_name_bad i (by simp [nameFieldOk, hvn])

theorem invalid_name_char_rejected_witness : "name" ∈ formErrors badNameInput :=
  invalid_name_char_rejected badNameInput '1' (by decide) (Or.inl (by decide))

/-! ### Claim C6: message length bounds -/

/-- Claim C6: a message shorter than 10 or longer than 2000 characters yields
a message-field error; a length between 10 and 2000 inclusive passes the
length check. -/
theorem message_length_bounds (i : ContactInput) :
    ((i.message.length < 10 ∨ 2000 < i.message.length) → "message" ∈ formErrors i)
    ∧ (10 ≤ i.message.length → i.message.length ≤ 2000 →
        "message" ∉ formErrors i) := by
  constructor
  · intro h
    rw [message_mem_formErrors_iff]
    simp only [messageFieldOk, Bool.and_eq_false_iff, decide_eq_false_iff_not]
    omega
  · intro h1 h2 hmem
    rw [message_mem_formErrors_iff] at hmem
    simp only [messageFieldOk, Bool.and_eq_false_iff, decide_eq_false_iff_not] at hmem
    omega

theorem message_length_bounds_witness :
    "message" ∈ formErrors shortMsgInput ∧ "message" ∉ formErrors exampleInput :=
  ⟨(message_length_bounds shortMsgInput).1 (Or.inl (by decide)),
   (message_length_bounds exampleInput).2 (by decide) (by decide)⟩

/-! ### Claim C1: response on notification failure -/

/-- Claim C1 counterexample: with a validated, persisted submission whose
notification dispatch throws, neither flow returns a "submission received"
success.  `send_contact_email_notification` re-raises, the views catch the
exception and answer with the generic error: the programmatic flow returns
`success = false` and the page flow re-renders with the error flash, while
the row count shows the submission was persisted. -/
theorem notify_failure_success_counterexample :
    (contact_form_ajax (some "XMLHttpRequest") exampleMeta exampleInput true false
        emptyStore 7).1 = .json false ajaxErrorMessage none
    ∧ (contact_form_ajax (some "XMLHttpRequest") exampleMeta exampleInput true false
        emptyStore 7).1 ≠ .json true successFlash none
    ∧ (contact_post exampleMeta exampleInput true false emptyStore 7).1
        = .renderPage pageErrorFlash
    ∧ (contact_post exampleMeta exampleInput true false emptyStore 7).1
        ≠ .redirect successFlash
    ∧ ((contact_form_ajax (some "XMLHttpRequest") exampleMeta exampleInput true false
        emptyStore 7).2).records.length = 1 := by
  refine ⟨rfl, by decide, rfl, by decide, rfl⟩

/-- Claim C1 (amended): when the notification transport throws for a
validated submission, the submission is still persisted, but the overall
response reported to the caller is the generic send-error failure: the page
flow re-renders the form with the error flash instead of redirecting, and
the programmatic flow returns `success = false` with the error message. -/
theorem notify_failure_error_response (meta : RequestMeta) (i : ContactInput)
    (v : ValidatedSubmission) (hv : validateContact i = .ok v) (st : Store)
    (now : Nat) :
    (contact_post meta i true false st now).1 = .renderPage pageErrorFlash
    ∧ (contact_post meta i true false st now).2 =
        createMessage st v (get_client_ip meta.xff meta.remote)
          (meta.user_agent.getD "") now
    ∧ (contact_form_ajax (some "XMLHttpRequest") meta i true false st now).1
        = .json false ajaxErrorMessage none
    ∧ (contact_form_ajax (some "XMLHttpRequest") meta i true false st now).2 =
        createMessage st v (get_client_ip meta.xff meta.remote)
          (meta.user_agent.getD "") now := by
  unfold contact_post contact_form_ajax
  rw [hv]
  simp

theorem notify_failure_error_response_witness :
    (contact_post exampleMeta exampleInput true false emptyStore 7).1
      = .renderPage pageErrorFlash
    ∧ (contact_post exampleMeta exampleInput true false emptyStore 7).2 =
        createMessage emptyStore exampleValidated
          (get_client_ip exampleMeta.xff exampleMeta.remote)
          (exampleMeta.user_agent.getD "") 7
    ∧ (contact_form_ajax (some "XMLHttpRequest") exampleMeta exampleInput true false
        emptyStore 7).1 = .json false ajaxErrorMessage none
    ∧ (contact_form_ajax (some "XMLHttpRequest") exampleMeta exampleInput true false
        emptyStore 7).2 =
        createMessage emptyStore exampleValidated
          (get_client_ip exampleMeta.xff exampleMeta.remote)
          (exampleMeta.user_agent.getD "") 7 :=
  notify_failure_error_response exampleMeta exampleInput exampleValidated rfl
    emptyStore 7

/-! ### Claim C3: no rollback on notification failure -/

/-- Claim C3: if notification dispatch fails after the submission was
persisted, the stored row is not rolled back: the previous rows are intact
and the new row carries all validated fields, in both flows. -/
theorem persisted_despite_notify_failure (meta : RequestMeta) (i : ContactInput)
    (v : ValidatedSubmission) (hv : validateContact i = .ok v) (st : Store)
    (now : Nat) :
    (∃ r, ((contact_post meta i true false st now).2).records = st.records ++ [r]
        ∧ r.name = v.name ∧ r.email = v.email ∧ r.phone = v.phone
        ∧ r.subject = v.subject ∧ r.message = v.message
        ∧ r.interest_area = v.interest_area)
    ∧ (∃ r, ((contact_form_ajax (some "XMLHttpRequest") meta i true false st
          now).2).records = st.records ++ [r]
        ∧ r.name = v.name ∧ r.email = v.email ∧ r.phone = v.phone
        ∧ r.subject = v.subject ∧ r.message = v.message
        ∧ r.interest_area = v.interest_area) := by
  unfold contact_post contact_form_ajax
  rw [hv]
  exact ⟨⟨newRecord st v (get_client_ip meta.xff meta.remote)
      (meta.user_agent.getD "") now, by simp [createMessage], rfl, rfl, rfl, rfl, rfl, rfl⟩,
    ⟨newRecord st v (get_client_ip meta.xff meta.remote)
      (meta.user_agent.getD "") now, by simp [createMessage], rfl, rfl, rfl, rfl, rfl, rfl⟩⟩

theorem persisted_despite_notify_failure_witness :
    (∃ r, ((contact_post exampleMeta exampleInput true false sampleStore 7).2).records
        = sampleStore.records ++ [r]
        ∧ r.name = exampleValidated.name ∧ r.email = exampleValidated.email
        ∧ r.phone = exampleValidated.phone ∧ r.subject = exampleValidated.subject
        ∧ r.message = exampleValidated.message
        ∧ r.interest_area = exampleValidated.interest_area)
    ∧ (∃ r, ((contact_form_ajax (some "XMLHttpRequest") exampleMeta exampleInput true
          false sampleStore 7).2).records = sampleStore.records ++ [r]
        ∧ r.name = exampleValidated.name ∧ r.email = exampleValidated.email
        ∧ r.phone = exampleValidated.phone ∧ r.subject = exampleValidated.subject
        ∧ r.message = exampleValidated.message
        ∧ r.interest_area = exampleValidated.interest_area) :=
  persisted_despite_notify_failure exampleMeta exampleInput exampleValidated rfl
    sampleStore 7

/-! ### Claim C7: minimal valid submission and defaults -/

/-- Claim C7: a submission carrying only a valid name, a valid email and a
message of valid length (phone, subject and interest-area omitted) produces
no validation errors and is persisted with subject "General Inquiry" and
interest-area "general"; the page flow redirects with the success flash. -/
theorem minimal_submission_accepted (i : ContactInput)
    (hph : i.phone = none) (hsub : i.subject = none)
    (hint : i.interest_area = none) (hname : nameFieldOk i.name = true)
    (hemail : emailFieldOk i.email = true)
    (hmsg : messageFieldOk i.message = true) :
    formErrors i = []
    ∧ validateContact i =
        .ok { name := i.name
              email := i.email
              phone := none
              subject := "General Inquiry"
              message := i.message
              interest_area := "general" }
    ∧ ∀ meta st now,
        (contact_post meta i true true st now).1 = .redirect successFlash
        ∧ ∃ r, ((contact_post meta i true true st now).2).records
              = st.records ++ [r]
            ∧ r.subject = "General Inquiry" ∧ r.interest_area = "general" := by
  have herr : formErrors i = [] := by
    unfold formErrors
    rw [hph, hsub, hint, hname, hemail, hmsg]
    simp [phoneFieldOk, subjectFieldOk, interestFieldOk]
  have hval : validateContact i =
      .ok { name := i.name
            email := i.email
            phone := none
            subject := "General Inquiry"
            message := i.message
            interest_area := "general" } := by
    unfold validateContact
    rw [if_pos herr, hph, hsub, hint]
  refine ⟨herr, hval, ?_⟩
  intro meta st now
  unfold contact_post
  rw [hval]
  exact ⟨rfl, ⟨newRecord st ⟨i.name, i.email, none, "General Inquiry", i.message,
    "general"⟩ (get_client_ip meta.xff meta.remote) (meta.user_agent.getD "") now,
    rfl, rfl, rfl⟩⟩

theorem minimal_submission_accepted_witness :
    formErrors exampleInput = []
    ∧ validateContact exampleInput =
        .ok { name := exampleInput.name
              email := exampleInput.email
              phone := none
              subject := "General Inquiry"
              message := exampleInput.message
              interest_area := "general" }
    ∧ ∀ meta st now,
        (contact_post meta exampleInput true true st now).1 = .redirect successFlash
        ∧ ∃ r, ((contact_post meta exampleInput true true st now).2).records
              = st.records ++ [r]
            ∧ r.subject = "General Inquiry" ∧ r.interest_area = "general" :=
  minimal_submission_accepted exampleInput rfl rfl rfl (by decide) (by decide)
    (by decide)

/-! ### Claim C9: the AJAX surface -/

/-- Claim C9: without the `XMLHttpRequest` marker header the AJAX endpoint
answers with a client-error response; with it, the answer is a structured
payload with a success boolean and a message string whose per-field errors
mapping is present exactly when validation failed. -/
theorem ajax_response_shape (hdr : Option String) (meta : RequestMeta)
    (i : ContactInput) (saveOk emailOk : Bool) (st : Store) (now : Nat) :
    (hdr ≠ some "XMLHttpRequest" →
        (contact_form_ajax hdr meta i saveOk emailOk st now).1 = .badRequest)
    ∧ (hdr = some "XMLHttpRequest" →
        ∃ s m errs, (contact_form_ajax hdr meta i saveOk emailOk st now).1
            = .json s m errs
          ∧ (errs.isSome ↔ formErrors i ≠ [])) := by
  constructor
  · intro h
    unfold contact_form_ajax
    rw [if_pos h]
  · intro h
    subst h
    unfold contact_form_ajax validateContact
    by_cases hfe : formErrors i = []
    · rw [if_neg (by simp), if_pos hfe]
      cases saveOk <;> cases emailOk <;>
        exact ⟨_, _, none, rfl, by simp [hfe]⟩
    · rw [if_neg (by simp), if_neg hfe]
      exact ⟨false, correctErrorsFlash, some (formErrors i), rfl, by simp [hfe]⟩

theorem ajax_response_shape_witness :
    (contact_form_ajax none exampleMeta exampleInput true true emptyStore 0).1
      = .badRequest
    ∧ ∃ s m errs,
        (contact_form_ajax (some "XMLHttpRequest") exampleMeta badNameInput true true
          emptyStore 0).1 = .json s m errs
        ∧ (errs.isSome ↔ formErrors badNameInput ≠ []) :=
  ⟨(ajax_response_shape none exampleMeta exampleInput true true emptyStore 0).1
      (by simp),
   (ajax_response_shape (some "XMLHttpRequest") exampleMeta badNameInput true true
      emptyStore 0).2 rfl⟩

/-! ### Claim C10: recorded source IP -/

/-- Claim C10: the recorded source IP is the first comma-separated entry of
the X-Forwarded-For header when present and non-empty, and the transport
remote address (possibly absent) otherwise; the value persisted on the row
is `get_client_ip` of the request metadata alone, never a form field. -/
theorem recorded_ip_from_headers (meta : RequestMeta) (i : ContactInput)
    (v : ValidatedSubmission) (hv : validateContact i = .ok v) (emailOk : Bool)
    (st : Store) (now : Nat) :
    (∀ s remote, s ≠ "" →
        get_client_ip (some s) remote = some ((pySplit ',' s).headD ""))
    ∧ (∀ remote, get_client_ip none remote = remote
        ∧ get_client_ip (some "") remote = remote)
    ∧ (∃ r, ((contact_post meta i true emailOk st now).2).records
          = st.records ++ [r]
        ∧ r.ip_address = get_client_ip meta.xff meta.remote) := by
  refine ⟨?_, ?_, ?_⟩
  · intro s remote hs
    have hne : s.isEmpty = false := by
      rw [← Bool.not_eq_true, String.isEmpty_iff]
      exact hs
    unfold get_client_ip metaTruthy
    rw [if_pos (by simp [hne])]
    simp
  · intro remote
    exact ⟨rfl, rfl⟩
  · unfold contact_post
    rw [hv]
    cases emailOk <;>
      exact ⟨newRecord st v (get_client_ip meta.xff meta.remote)
        (meta.user_agent.getD "") now, by simp [createMessage], rfl⟩

theorem recorded_ip_from_headers_witness :
    (∀ s remote, s ≠ "" →
        get_client_ip (some s) remote = some ((pySplit ',' s).headD ""))
    ∧ (∀ remote, get_client_ip none remote = remote
        ∧ get_client_ip (some "") remote = remote)
    ∧ (∃ r, ((contact_post exampleMeta exampleInput true true emptyStore 3).2).records
          = emptyStore.records ++ [r]
        ∧ r.ip_address = get_client_ip exampleMeta.xff exampleMeta.remote) :=
  recorded_ip_from_headers exampleMeta exampleInput exampleValidated rfl true
    emptyStore 3

/-! ### Claim C2: record invariants along any operation trace -/

/-- Row preservation: same row identity and content, `created_at` unchanged,
`updated_at` not regressed; only `is_read` / `is_archived` / `updated_at`
may differ. -/
def preservesRow (r r' : ContactRecord) : Prop :=
  r'.id = r.id ∧ r'.created_at = r.created_at ∧ r.updated_at ≤ r'.updated_at
    ∧ r'.name = r.name ∧ r'.email = r.email ∧ r'.phone = r.phone
    ∧ r'.subject = r.subject ∧ r'.message = r.message
    ∧ r'.interest_area = r.interest_area ∧ r'.ip_address = r.ip_address
    ∧ r'.user_agent = r.user_agent

lemma preservesRow_refl (r : ContactRecord) : preservesRow r r :=
  ⟨rfl, rfl, le_refl _, rfl, rfl, rfl, rfl, rfl, rfl, rfl, rfl⟩

lemma preservesRow_trans {a b c : ContactRecord} (h1 : preservesRow a b)
    (h2 : preservesRow b c) : preservesRow a c := by
  obtain ⟨i1, c1, u1, n1, e1, p1, s1, m1, a1, ip1, ua1⟩ := h1
  obtain ⟨i2, c2, u2, n2, e2, p2, s2, m2, a2, ip2, ua2⟩ := h2
  exact ⟨i2.trans i1, c2.trans c1, u1.trans u2, n2.trans n1, e2.trans e1,
    p2.trans p1, s2.trans s1, m2.trans m1, a2.trans a1, ip2.trans ip1,
    ua2.trans ua1⟩

lemma le_fold_max (r : ContactRecord) (l : List ContactRecord) (h : r ∈ l) :
    r.updated_at ≤ l.foldr (fun x m => max x.updated_at m) 0 := by
  induction l with
  | nil => cases h
  | cons a t ih =>
      rcases List.mem_cons.mp h with rfl | h'
      · exact le_max_left _ _
      · exact le_trans (ih h') (le_max_right _ _)

lemma le_maxUpdated {st : Store} {r : ContactRecord} (h : r ∈ st.records) :
    r.updated_at ≤ maxUpdated st :=
  le_fold_max r st.records h

lemma preserves_map (records : List ContactRecord) (f : ContactRecord → ContactRecord)
    (hf : ∀ x ∈ records, preservesRow x (f x)) (r : ContactRecord)
    (hr : r ∈ records) : ∃ r' ∈ records.map f, preservesRow r r' :=
  ⟨f r, List.mem_map_of_mem f hr, hf r hr⟩

/-- Every single operation keeps every existing row present, identical in
content, with `created_at` unchanged and `updated_at` not regressed,
provided the clock instant it stamps is not in the table's past. -/
lemma applyOp_preserves (o : Op) (st : Store)
    (hcond : (match opStamp o with
              | some t => decide (maxUpdated st ≤ t)
              | none => true) = true) :
    ∀ r ∈ st.records, ∃ r' ∈ (applyOp st o).records, preservesRow r r' := by
  intro r hr
  cases o with
  | submit meta i saveOk emailOk t =>
      dsimp only [applyOp, contact_post]
      cases hv : validateContact i with
      | error e => exact ⟨r, hr, preservesRow_refl r⟩
      | ok v =>
          cases saveOk with
          | false => exact ⟨r, hr, preservesRow_refl r⟩
          | true =>
              cases emailOk with
              | false =>
                  exact ⟨r, List.mem_append_left _ hr, preservesRow_refl r⟩
              | true =>
                  exact ⟨r, List.mem_append_left _ hr, preservesRow_refl r⟩
  | markReadView objId t =>
      have ht : maxUpdated st ≤ t := of_decide_eq_true (by simpa [opStamp] using hcond)
      apply preserves_map _ _ _ r hr
      intro x hx
      dsimp only
      by_cases hid : x.id = objId
      · rw [if_pos hid]
        exact ⟨rfl, rfl, le_trans (le_maxUpdated hx) ht, rfl, rfl, rfl, rfl, rfl,
          rfl, rfl, rfl⟩
      · rw [if_neg hid]
        exact preservesRow_refl x
  | bulkMarkRead ids =>
      apply preserves_map _ _ _ r hr
      intro x _
      dsimp only
      by_cases hid : x.id ∈ ids
      · rw [if_pos hid]
        exact ⟨rfl, rfl, le_refl _, rfl, rfl, rfl, rfl, rfl, rfl, rfl, rfl⟩
      · rw [if_neg hid]
        exact preservesRow_refl x
  | bulkMarkUnread ids =>
      apply preserves_map _ _ _ r hr
      intro x _
      dsimp only
      by_cases hid : x.id ∈ ids
      · rw [if_pos hid]
        exact ⟨rfl, rfl, le_refl _, rfl, rfl, rfl, rfl, rfl, rfl, rfl, rfl⟩
      · rw [if_neg hid]
        exact preservesRow_refl x
  | bulkArchive ids =>
      apply preserves_map _ _ _ r hr
      intro x _
      dsimp only
      by_cases hid : x.id ∈ ids
      · rw [if_pos hid]
        exact ⟨rfl, rfl, le_refl _, rfl, rfl, rfl, rfl, rfl, rfl, rfl, rfl⟩
      · rw [if_neg hid]
        exact preservesRow_refl x
  | bulkUnarchive ids =>
      apply preserves_map _ _ _ r hr
      intro x _
      dsimp only
      by_cases hid : x.id ∈ ids
      · rw [if_pos hid]
        exact ⟨rfl, rfl, le_refl _, rfl, rfl, rfl, rfl, rfl, rfl, rfl, rfl⟩
      · rw [if_neg hid]
        exact preservesRow_refl x
  | editStatus objId rd ar t =>
      have ht : maxUpdated st ≤ t := of_decide_eq_true (by simpa [opStamp] using hcond)
      apply preserves_map _ _ _ r hr
      intro x hx
      dsimp only
      by_cases hid : x.id = objId
      · rw [if_pos hid]
        exact ⟨rfl, rfl, le_trans (le_maxUpdated hx) ht, rfl, rfl, rfl, rfl, rfl,
          rfl, rfl, rfl⟩
      · rw [if_neg hid]
        exact preservesRow_refl x

/-- Claim C2: along every well-timed trace of core operations, each existing
row is never deleted, its `created_at` and submitted content never change,
and its `updated_at` never decreases: the only mutations are the explicit
read/archive toggles (which touch `is_read`, `is_archived`, `updated_at`
only). -/
theorem contact_message_invariants (ops : List Op) :
    ∀ st : Store, wellTimed st ops = true →
      ∀ r ∈ st.records, ∃ r' ∈ (applyTrace st ops).records, preservesRow r r' := by
  induction ops with
  | nil =>
      intro st _ r hr
      exact ⟨r, hr, preservesRow_refl r⟩
  | cons o rest ih =>
      intro st hwt r hr
      rw [wellTimed] at hwt
      obtain ⟨hcond, hrest⟩ := (Bool.and_eq_true _ _).mp hwt
      obtain ⟨r1, hr1, hp1⟩ := applyOp_preserves o st hcond r hr
      obtain ⟨r', hr', hp'⟩ := ih (applyOp st o) hrest r1 hr1
      exact ⟨r', hr', preservesRow_trans hp1 hp'⟩

theorem contact_message_invariants_witness :
    ∃ r' ∈ (applyTrace sampleStore
        [Op.markReadView 1 5, Op.bulkArchive [1], Op.editStatus 1 false true 9]).records,
      preservesRow sampleRecord r' :=
  contact_message_invariants
    [Op.markReadView 1 5, Op.bulkArchive [1], Op.editStatus 1 false true 9]
    sampleStore (by decide) sampleRecord (by decide)

/-! ### Claim C8: idempotence of mark-as-read -/

lemma mark_read_view_sets (st : Store) (objId t : Nat) :
    ∀ r1 ∈ (mark_read_view st objId t).records, r1.id = objId →
      r1.is_read = true ∧ r1.updated_at = t := by
  intro r1 hr1 hid
  simp only [mark_read_view, List.mem_map] at hr1
  obtain ⟨r, _, rfl⟩ := hr1
  by_cases h : r.id = objId
  · rw [if_pos h]
    exact ⟨rfl, rfl⟩
  · rw [if_neg h] at hid ⊢
    exact absurd hid h

lemma mark_as_read_sets (st : Store) (ids : List Nat) :
    ∀ r1 ∈ (mark_as_read st ids).records, r1.id ∈ ids → r1.is_read = true := by
  intro r1 hr1 hid
  simp only [mark_as_read, List.mem_map] at hr1
  obtain ⟨r, _, rfl⟩ := hr1
  by_cases h : r.id ∈ ids
  · rw [if_pos h]
  · rw [if_neg h] at hid ⊢
    exact absurd hid h

lemma map_eq_of_funext {α β : Type _} (l : List α) (f g : α → β)
    (h : ∀ a, f a = g a) : l.map f = l.map g := by
  induction l with
  | nil => rfl
  | cons a t ih => simp [h a, ih]

lemma mark_as_read_idem (st : Store) (ids : List Nat) :
    mark_as_read (mark_as_read st ids) ids = mark_as_read st ids := by
  unfold mark_as_read
  simp only [List.map_map]
  congr 1
  apply map_eq_of_funext
  intro r
  by_cases h : r.id ∈ ids <;> simp [Function.comp, h]

/-- Claim C8: marking a stored submission as read twice leaves `is_read`
true after each application and never regresses `updated_at`.  Through
`mark_read_view` (the `save()` path, where `auto_now` stamps the clock) the
second stamp is no earlier than the first; through the bulk
`queryset.update` action the second application is literally a no-op. -/
theorem mark_read_idempotent (st : Store) (objId t1 t2 : Nat) (h12 : t1 ≤ t2) :
    (∀ r1 ∈ (mark_read_view st objId t1).records, r1.id = objId →
        r1.is_read = true ∧
        ∀ r2 ∈ (mark_read_view (mark_read_view st objId t1) objId t2).records,
          r2.id = objId → r2.is_read = true ∧ r1.updated_at ≤ r2.updated_at)
    ∧ mark_as_read (mark_as_read st [objId]) [objId] = mark_as_read st [objId]
    ∧ (∀ r1 ∈ (mark_as_read st [objId]).records, r1.id ∈ [objId] →
        r1.is_read = true) := by
  refine ⟨?_, mark_as_read_idem st [objId], mark_as_read_sets st [objId]⟩
  intro r1 hr1 hid1
  obtain ⟨h1read, h1upd⟩ := mark_read_view_sets st objId t1 r1 hr1 hid1
  refine ⟨h1read, ?_⟩
  intro r2 hr2 hid2
  obtain ⟨h2read, h2upd⟩ :=
    mark_read_view_sets (mark_read_view st objId t1) objId t2 r2 hr2 hid2
  refine ⟨h2read, ?_⟩
  rw [h1upd, h2upd]
  exact h12

theorem mark_read_idempotent_witness :
    (∀ r1 ∈ (mark_read_view sampleStore 1 5).records, r1.id = 1 →
        r1.is_read = true ∧
        ∀ r2 ∈ (mark_read_view (mark_read_view sampleStore 1 5) 1 9).records,
          r2.id = 1 → r2.is_read = true ∧ r1.updated_at ≤ r2.updated_at)
    ∧ mark_as_read (mark_as_read sampleStore [1]) [1] = mark_as_read sampleStore [1]
    ∧ (∀ r1 ∈ (mark_as_read sampleStore [1]).records, r1.id ∈ [1] →
        r1.is_read = true) :=
  mark_read_idempotent sampleStore 1 5 9 (by decide)

end GKGroup
